import Mathlib

/-!
Verification of the gesture-recognition core of `better-nav-xr`.

The embedding below translates the per-frame (`useFrame`) bodies of the hooks
in `src/packages/nav/hooks/useXRGesture.ts` (neutral detector, gesture lock,
unified swipe detector) and the legacy single-direction hooks, together with
the shared `gestureAtom` state, into pure Lean functions over explicit state.
Positions and clock times are embedded as rationals (`Rat`); the JavaScript
truthiness quirks of the source (`previousTime.current` is falsy at `0`,
`gestureStartTime.current || currentTime`) are modelled explicitly.
-/

/-- Embedding of `Math.abs`. -/
def jsAbs (x : Rat) : Rat := if x < 0 then -x else x

/-- A 3D position (the core only consumes positions, per the data model). -/
structure Vec3 where
  x : Rat
  y : Rat
  z : Rat
deriving DecidableEq

/-- Squared Euclidean distance between two positions.  The source computes
`thumbPos.distanceTo(indexPos) <= threshold` with the Euclidean distance; on
nonnegative values `dist ≤ t ↔ dist² ≤ t²`, so the squared form keeps the
comparison inside `Rat`. -/
def distSq (a b : Vec3) : Rat :=
  (a.x - b.x) ^ 2 + (a.y - b.y) ^ 2 + (a.z - b.z) ^ 2

/-- The joint positions the hooks consume from a `Joints` frame:
`Thumb_Tip` and `Index_Tip` (neutral detector) and `Middle_Tip`
(swipe detectors), extracted via `getJointTransform` / `getJointXYZ`. -/
structure Frame where
  thumbTip : Vec3
  indexTip : Vec3
  middleTip : Vec3
deriving DecidableEq

/-- The `gestureAtom` state (`src/packages/nav/helpers/gesture.ts`):
`{ neutral, isBlocked, lastGestureTime }`, shared by every hook. -/
structure Gesture where
  neutral : Bool
  isBlocked : Bool
  lastGestureTime : Rat
deriving DecidableEq

/-- Initial value of `gestureAtom`. -/
def gestureInit : Gesture :=
  { neutral := false, isBlocked := false, lastGestureTime := 0 }

/-- Body of `checkNeutralPosition` in `useNeutralHandPos`
(`useXRGesture.ts` lines 38-55): no joints ⇒ not neutral; otherwise neutral
iff the thumb-tip/index-tip distance is at most the threshold (inclusive,
here in squared form). -/
def checkNeutralPosition (threshold : Rat) : Option Frame → Bool
  | none => false
  | some f => distSq f.thumbTip f.indexTip ≤ threshold ^ 2

/-- `triggerGesture` from `useGestureManager` (`useXRGesture.ts` lines
106-120): if blocked, return `false` with no state change; otherwise block,
record the current time, and return `true`. -/
def triggerGesture (g : Gesture) (now : Rat) : Bool × Gesture :=
  if g.isBlocked then (false, g)
  else (true, { g with isBlocked := true, lastGestureTime := now })

/-- The unblocking check in `useGestureManager`'s `useFrame`
(`useXRGesture.ts` lines 94-104): clear `isBlocked` once `blockDuration`
has elapsed since the last trigger. -/
def advanceLock (blockDuration now : Rat) (g : Gesture) : Gesture :=
  if g.isBlocked = true ∧ now - g.lastGestureTime ≥ blockDuration then
    { g with isBlocked := false }
  else g

/-- `SwipeDirection` (`useXRGesture.ts` line 134). -/
inductive SwipeDirection where
  | left
  | right
  | up
  | down
deriving DecidableEq

/-- `SwipeCallbacks` (`useXRGesture.ts` lines 136-141), reduced to whether a
callback is registered for each direction (the only property the detector's
control flow consumes). -/
structure SwipeCallbacks where
  onLeft : Bool
  onRight : Bool
  onUp : Bool
  onDown : Bool
deriving DecidableEq

/-- The mutable refs of `useSwipeGesture` (`useXRGesture.ts` lines 182-192). -/
structure SwipeTrack where
  previousPosition : Option Vec3
  previousTime : Option Rat
  gestureStartPosition : Option Vec3
  gestureStartTime : Option Rat
  currentDirection : Option SwipeDirection
deriving DecidableEq

/-- The all-`null` reset state (`useXRGesture.ts` lines 197-201 / 208-212). -/
def SwipeTrack.reset : SwipeTrack :=
  { previousPosition := none, previousTime := none, gestureStartPosition := none,
    gestureStartTime := none, currentDirection := none }

/-- Re-anchoring of the window: `gestureStartPosition`/`gestureStartTime` to
the current sample and `currentDirection` cleared — the bodies at
`useXRGesture.ts` lines 222-226 (bootstrap), 265-267 (post-fire reset) and
310-312 / 388-390 (reversal reset) are all this assignment. -/
def reanchor (p : Vec3) (now : Rat) (st : SwipeTrack) : SwipeTrack :=
  { st with
      gestureStartPosition := some p
      gestureStartTime := some now
      currentDirection := none }

/-- Value of `gestureStartPosition.current?.x || 0`. -/
def SwipeTrack.startX (st : SwipeTrack) : Rat :=
  match st.gestureStartPosition with
  | some p => p.x
  | none => 0

/-- Value of `gestureStartPosition.current?.y || 0`. -/
def SwipeTrack.startY (st : SwipeTrack) : Rat :=
  match st.gestureStartPosition with
  | some p => p.y
  | none => 0

/-- Value of `gestureStartTime.current || currentTime`: JavaScript `||`
falls through to `currentTime` when the stored time is `null` or `0`. -/
def SwipeTrack.startTimeOr (st : SwipeTrack) (now : Rat) : Rat :=
  match st.gestureStartTime with
  | some t => if t = 0 then now else t
  | none => now

/-- The shared trigger attempt of the four direction blocks
(`useXRGesture.ts` lines 256-269 and its three clones): if the accumulated
distance and elapsed time pass the thresholds and a callback is registered,
call `triggerGesture`; on success fire the event and re-anchor, on failure
leave the window untouched. -/
def tryFire (hasCb : Bool) (threshold timeThreshold totalDistance totalTime : Rat)
    (d : SwipeDirection) (p : Vec3) (now : Rat) (st : SwipeTrack) (g : Gesture) :
    SwipeTrack × Gesture × Option SwipeDirection :=
  if totalDistance ≥ threshold ∧ totalTime ≤ timeThreshold ∧ hasCb = true then
    match triggerGesture g now with
    | (true, g1) => (reanchor p now st, g1, some d)
    | (false, g1) => (st, g1, none)
  else (st, g, none)

/-- Horizontal branch of `useSwipeGesture` (`useXRGesture.ts` lines 238-314),
run when `|deltaX| > |deltaY|`: left/right direction locking and trigger
attempt, followed by the reversal check on the updated direction. -/
def horizBranch (cb : SwipeCallbacks) (hTh hTT : Rat) (p : Vec3) (now deltaX : Rat)
    (st : SwipeTrack) (g : Gesture) : SwipeTrack × Gesture × Option SwipeDirection :=
  let r :=
    if deltaX < 0 then
      if st.currentDirection = none ∨ st.currentDirection = some SwipeDirection.left then
        let st1 := { st with currentDirection := some SwipeDirection.left }
        tryFire cb.onLeft hTh hTT (jsAbs (p.x - st1.startX)) (now - st1.startTimeOr now)
          SwipeDirection.left p now st1 g
      else (st, g, none)
    else if deltaX > 0 then
      if st.currentDirection = none ∨ st.currentDirection = some SwipeDirection.right then
        let st1 := { st with currentDirection := some SwipeDirection.right }
        tryFire cb.onRight hTh hTT (jsAbs (p.x - st1.startX)) (now - st1.startTimeOr now)
          SwipeDirection.right p now st1 g
      else (st, g, none)
    else (st, g, none)
  if (r.1.currentDirection = some SwipeDirection.left ∧ deltaX > 0) ∨
      (r.1.currentDirection = some SwipeDirection.right ∧ deltaX < 0) then
    (reanchor p now r.1, r.2.1, r.2.2)
  else r

/-- Vertical branch of `useSwipeGesture` (`useXRGesture.ts` lines 316-392),
run when `|deltaY| > |deltaX|`.  Note the source computes the up-distance as
`|startY - y|` and the down-distance as `|y - startY|`. -/
def vertBranch (cb : SwipeCallbacks) (vTh vTT : Rat) (p : Vec3) (now deltaY : Rat)
    (st : SwipeTrack) (g : Gesture) : SwipeTrack × Gesture × Option SwipeDirection :=
  let r :=
    if deltaY > 0 then
      if st.currentDirection = none ∨ st.currentDirection = some SwipeDirection.up then
        let st1 := { st with currentDirection := some SwipeDirection.up }
        tryFire cb.onUp vTh vTT (jsAbs (st1.startY - p.y)) (now - st1.startTimeOr now)
          SwipeDirection.up p now st1 g
      else (st, g, none)
    else if deltaY < 0 then
      if st.currentDirection = none ∨ st.currentDirection = some SwipeDirection.down then
        let st1 := { st with currentDirection := some SwipeDirection.down }
        tryFire cb.onDown vTh vTT (jsAbs (p.y - st1.startY)) (now - st1.startTimeOr now)
          SwipeDirection.down p now st1 g
      else (st, g, none)
    else (st, g, none)
  if (r.1.currentDirection = some SwipeDirection.up ∧ deltaY < 0) ∨
      (r.1.currentDirection = some SwipeDirection.down ∧ deltaY > 0) then
    (reanchor p now r.1, r.2.1, r.2.2)
  else r

/-- The `useFrame` body of `useSwipeGesture` (`useXRGesture.ts` lines
194-398): gate on joint availability and the neutral signal (resetting all
tracking when either fails), bootstrap the window, classify the dominant
axis of the per-tick delta (the guard `previousPosition.current &&
previousTime.current` is JavaScript-truthy, so a stored time of exactly `0`
also skips classification), and finally update the previous sample. -/
def swipeStep (cb : SwipeCallbacks) (hTh vTh hTT vTT : Rat) (joints : Option Frame)
    (isNeutral : Bool) (now : Rat) (st : SwipeTrack) (g : Gesture) :
    SwipeTrack × Gesture × Option SwipeDirection :=
  match joints with
  | none => (SwipeTrack.reset, g, none)
  | some f =>
    if isNeutral = false then (SwipeTrack.reset, g, none)
    else
      let p := f.middleTip
      let st0 := if st.gestureStartPosition.isNone then reanchor p now st else st
      let r :=
        match st0.previousPosition, st0.previousTime with
        | some pp, some pt =>
          if pt = 0 then (st0, g, none)
          else
            let deltaX := p.x - pp.x
            let deltaY := p.y - pp.y
            if jsAbs deltaX > jsAbs deltaY then horizBranch cb hTh hTT p now deltaX st0 g
            else if jsAbs deltaY > jsAbs deltaX then vertBranch cb vTh vTT p now deltaY st0 g
            else (st0, g, none)
        | _, _ => (st0, g, none)
      ({ r.1 with previousPosition := some p, previousTime := some now }, r.2.1, r.2.2)

/-- The mutable refs of each legacy single-direction hook
(`useLeftSwipeGesture` et al., no `currentDirection`). -/
structure SingleTrack where
  previousPosition : Option Vec3
  previousTime : Option Rat
  gestureStartPosition : Option Vec3
  gestureStartTime : Option Rat
deriving DecidableEq

/-- The all-`null` reset state of a legacy hook. -/
def SingleTrack.reset : SingleTrack :=
  { previousPosition := none, previousTime := none, gestureStartPosition := none,
    gestureStartTime := none }

/-- Window re-anchoring of a legacy hook. -/
def reanchorS (p : Vec3) (now : Rat) (st : SingleTrack) : SingleTrack :=
  { st with gestureStartPosition := some p, gestureStartTime := some now }

/-- Value of `gestureStartPosition.current?.x || 0` for a legacy hook. -/
def SingleTrack.startX (st : SingleTrack) : Rat :=
  match st.gestureStartPosition with
  | some p => p.x
  | none => 0

/-- Value of `gestureStartPosition.current?.y || 0` for a legacy hook. -/
def SingleTrack.startY (st : SingleTrack) : Rat :=
  match st.gestureStartPosition with
  | some p => p.y
  | none => 0

/-- Value of `gestureStartTime.current || currentTime` for a legacy hook. -/
def SingleTrack.startTimeOr (st : SingleTrack) (now : Rat) : Rat :=
  match st.gestureStartTime with
  | some t => if t = 0 then now else t
  | none => now

/-- The `useFrame` body of the legacy `useLeftSwipeGesture` (unnamed source
file, lines 174-229): no neutral gating; fires on leftward motion past the
thresholds, re-anchors on rightward motion.  The returned `Bool` records
whether the callback was invoked this tick. -/
def leftSwipeTick (threshold timeThreshold : Rat) (joints : Option Frame)
    (now : Rat) (st : SingleTrack) (g : Gesture) : SingleTrack × Gesture × Bool :=
  match joints with
  | none => (SingleTrack.reset, g, false)
  | some f =>
    let p := f.middleTip
    let st0 := if st.gestureStartPosition.isNone then reanchorS p now st else st
    let r :=
      match st0.previousPosition, st0.previousTime with
      | some pp, some pt =>
        if pt = 0 then (st0, g, false)
        else
          let deltaX := p.x - pp.x
          if deltaX < 0 then
            if jsAbs (p.x - st0.startX) ≥ threshold ∧ now - st0.startTimeOr now ≤ timeThreshold then
              match triggerGesture g now with
              | (true, g1) => (reanchorS p now st0, g1, true)
              | (false, g1) => (st0, g1, false)
            else (st0, g, false)
          else if deltaX > 0 then (reanchorS p now st0, g, false)
          else (st0, g, false)
      | _, _ => (st0, g, false)
    ({ r.1 with previousPosition := some p, previousTime := some now }, r.2.1, r.2.2)

/-- The `useFrame` body of the legacy `useRightSwipeGesture` (unnamed source
file, lines 276-331): fires on rightward motion, re-anchors on leftward. -/
def rightSwipeTick (threshold timeThreshold : Rat) (joints : Option Frame)
    (now : Rat) (st : SingleTrack) (g : Gesture) : SingleTrack × Gesture × Bool :=
  match joints with
  | none => (SingleTrack.reset, g, false)
  | some f =>
    let p := f.middleTip
    let st0 := if st.gestureStartPosition.isNone then reanchorS p now st else st
    let r :=
      match st0.previousPosition, st0.previousTime with
      | some pp, some pt =>
        if pt = 0 then (st0, g, false)
        else
          let deltaX := p.x - pp.x
          if deltaX > 0 then
            if jsAbs (p.x - st0.startX) ≥ threshold ∧ now - st0.startTimeOr now ≤ timeThreshold then
              match triggerGesture g now with
              | (true, g1) => (reanchorS p now st0, g1, true)
              | (false, g1) => (st0, g1, false)
            else (st0, g, false)
          else if deltaX < 0 then (reanchorS p now st0, g, false)
          else (st0, g, false)
      | _, _ => (st0, g, false)
    ({ r.1 with previousPosition := some p, previousTime := some now }, r.2.1, r.2.2)

/-- The `useFrame` body of the legacy `useUpSwipeGesture` (unnamed source
file, lines 378-433): fires on upward motion (`deltaY > 0`, distance
`|startY - y|`), re-anchors on downward. -/
def upSwipeTick (threshold timeThreshold : Rat) (joints : Option Frame)
    (now : Rat) (st : SingleTrack) (g : Gesture) : SingleTrack × Gesture × Bool :=
  match joints with
  | none => (SingleTrack.reset, g, false)
  | some f =>
    let p := f.middleTip
    let st0 := if st.gestureStartPosition.isNone then reanchorS p now st else st
    let r :=
      match st0.previousPosition, st0.previousTime with
      | some pp, some pt =>
        if pt = 0 then (st0, g, false)
        else
          let deltaY := p.y - pp.y
          if deltaY > 0 then
            if jsAbs (st0.startY - p.y) ≥ threshold ∧ now - st0.startTimeOr now ≤ timeThreshold then
              match triggerGesture g now with
              | (true, g1) => (reanchorS p now st0, g1, true)
              | (false, g1) => (st0, g1, false)
            else (st0, g, false)
          else if deltaY < 0 then (reanchorS p now st0, g, false)
          else (st0, g, false)
      | _, _ => (st0, g, false)
    ({ r.1 with previousPosition := some p, previousTime := some now }, r.2.1, r.2.2)

/-- The `useFrame` body of the legacy `useDownSwipeGesture` (unnamed source
file, lines 480-535): fires on downward motion (`deltaY < 0`, distance
`|y - startY|`), re-anchors on upward. -/
def downSwipeTick (threshold timeThreshold : Rat) (joints : Option Frame)
    (now : Rat) (st : SingleTrack) (g : Gesture) : SingleTrack × Gesture × Bool :=
  match joints with
  | none => (SingleTrack.reset, g, false)
  | some f =>
    let p := f.middleTip
    let st0 := if st.gestureStartPosition.isNone then reanchorS p now st else st
    let r :=
      match st0.previousPosition, st0.previousTime with
      | some pp, some pt =>
        if pt = 0 then (st0, g, false)
        else
          let deltaY := p.y - pp.y
          if deltaY < 0 then
            if jsAbs (p.y - st0.startY) ≥ threshold ∧ now - st0.startTimeOr now ≤ timeThreshold then
              match triggerGesture g now with
              | (true, g1) => (reanchorS p now st0, g1, true)
              | (false, g1) => (st0, g1, false)
            else (st0, g, false)
          else if deltaY > 0 then (reanchorS p now st0, g, false)
          else (st0, g, false)
      | _, _ => (st0, g, false)
    ({ r.1 with previousPosition := some p, previousTime := some now }, r.2.1, r.2.2)

/-- Per-tick driver for a single `useSwipeGesture` detector with its
`useGestureManager`: the manager's `useFrame` (registered first, so it runs
first each frame) advances the lock, then the detector's `useFrame` runs.
Each tick supplies the clock time, the joint frame (or none) and the
neutral signal; fired events are collected with their tick times. -/
def runUnified (cb : SwipeCallbacks) (hTh vTh hTT vTT D : Rat) :
    List (Rat × Option Frame × Bool) → SwipeTrack → Gesture →
    SwipeTrack × Gesture × List (SwipeDirection × Rat)
  | [], st, g => (st, g, [])
  | (now, joints, neu) :: rest, st, g =>
    match swipeStep cb hTh vTh hTT vTT joints neu now st (advanceLock D now g) with
    | (st1, g1, ev) =>
      match runUnified cb hTh vTh hTT vTT D rest st1 g1 with
      | (st2, g2, evs) =>
        (st2, g2,
          match ev with
          | some d => (d, now) :: evs
          | none => evs)

/-! ## Helper lemmas -/

/-- The embedded `Math.abs` agrees with `|·|` on `Rat`. -/
theorem jsAbs_eq_abs (x : Rat) : jsAbs x = |x| := by
  unfold jsAbs
  by_cases h : x < 0
  · rw [if_pos h, abs_of_neg h]
  · rw [if_neg h, abs_of_nonneg (not_lt.mp h)]

lemma dirNe_some_none (d : SwipeDirection) : (some d = (none : Option SwipeDirection)) = False := by
  simp

lemma dirNe_none_some (d : SwipeDirection) : ((none : Option SwipeDirection) = some d) = False := by
  simp

lemma dirNe_left_right : (SwipeDirection.left = SwipeDirection.right) = False := by simp

lemma dirNe_left_up : (SwipeDirection.left = SwipeDirection.up) = False := by simp

lemma dirNe_left_down : (SwipeDirection.left = SwipeDirection.down) = False := by simp

lemma dirNe_right_left : (SwipeDirection.right = SwipeDirection.left) = False := by simp

lemma dirNe_right_up : (SwipeDirection.right = SwipeDirection.up) = False := by simp

lemma dirNe_right_down : (SwipeDirection.right = SwipeDirection.down) = False := by simp

lemma dirNe_up_left : (SwipeDirection.up = SwipeDirection.left) = False := by simp

lemma dirNe_up_right : (SwipeDirection.up = SwipeDirection.right) = False := by simp

lemma dirNe_up_down : (SwipeDirection.up = SwipeDirection.down) = False := by simp

lemma dirNe_down_left : (SwipeDirection.down = SwipeDirection.left) = False := by simp

lemma dirNe_down_right : (SwipeDirection.down = SwipeDirection.right) = False := by simp

lemma dirNe_down_up : (SwipeDirection.down = SwipeDirection.up) = False := by simp

/-- The P4 trace: seven ticks at 0.1 s spacing, the tracked middle-finger
tip translating by -0.01 m per tick along X, neutral throughout. -/
def p4Ticks : List (Rat × Option Frame × Bool) :=
  [(1/10, some ⟨⟨0, 0, 0⟩, ⟨0, 0, 0⟩, ⟨0, 0, 0⟩⟩, true),
   (1/5, some ⟨⟨0, 0, 0⟩, ⟨0, 0, 0⟩, ⟨(-(1/100)), 0, 0⟩⟩, true),
   (3/10, some ⟨⟨0, 0, 0⟩, ⟨0, 0, 0⟩, ⟨(-(1/50)), 0, 0⟩⟩, true),
   (2/5, some ⟨⟨0, 0, 0⟩, ⟨0, 0, 0⟩, ⟨(-(3/100)), 0, 0⟩⟩, true),
   (1/2, some ⟨⟨0, 0, 0⟩, ⟨0, 0, 0⟩, ⟨(-(1/25)), 0, 0⟩⟩, true),
   (3/5, some ⟨⟨0, 0, 0⟩, ⟨0, 0, 0⟩, ⟨(-(1/20)), 0, 0⟩⟩, true),
   (7/10, some ⟨⟨0, 0, 0⟩, ⟨0, 0, 0⟩, ⟨(-(3/50)), 0, 0⟩⟩, true)]

lemma c2_suffix7 :
    runUnified ⟨true, false, false, false⟩ (3/50) (1/20) (7/10) (1/2) (1/5)
      [(7/10, some ⟨⟨0, 0, 0⟩, ⟨0, 0, 0⟩, ⟨(-(3/50)), 0, 0⟩⟩, true)]
      ⟨some ⟨(-(1/20)), 0, 0⟩, some (3/5), some ⟨0, 0, 0⟩, some (1/10), some SwipeDirection.left⟩ ⟨false, false, 0⟩
    = (⟨some ⟨(-(3/50)), 0, 0⟩, some (7/10), some ⟨(-(3/50)), 0, 0⟩, some (7/10), none⟩, ⟨false, true, 7/10⟩, [(SwipeDirection.left, 7/10)]) := by
  norm_num [runUnified, swipeStep, horizBranch, vertBranch, tryFire, triggerGesture,
    advanceLock, reanchor, SwipeTrack.startX, SwipeTrack.startY, SwipeTrack.startTimeOr,
    jsAbs, dirNe_some_none, dirNe_none_some, dirNe_left_right, dirNe_left_up, dirNe_left_down, dirNe_right_left, dirNe_right_up, dirNe_right_down, dirNe_up_left, dirNe_up_right, dirNe_up_down, dirNe_down_left, dirNe_down_right, dirNe_down_up]

lemma c2_suffix6 :
    runUnified ⟨true, false, false, false⟩ (3/50) (1/20) (7/10) (1/2) (1/5)
      [(3/5, some ⟨⟨0, 0, 0⟩, ⟨0, 0, 0⟩, ⟨(-(1/20)), 0, 0⟩⟩, true),
       (7/10, some ⟨⟨0, 0, 0⟩, ⟨0, 0, 0⟩, ⟨(-(3/50)), 0, 0⟩⟩, true)]
      ⟨some ⟨(-(1/25)), 0, 0⟩, some (1/2), some ⟨0, 0, 0⟩, some (1/10), some SwipeDirection.left⟩ ⟨false, false, 0⟩
    = (⟨some ⟨(-(3/50)), 0, 0⟩, some (7/10), some ⟨(-(3/50)), 0, 0⟩, some (7/10), none⟩, ⟨false, true, 7/10⟩, [(SwipeDirection.left, 7/10)]) := by
  norm_num [runUnified, swipeStep, horizBranch, vertBranch, tryFire, triggerGesture,
    advanceLock, reanchor, SwipeTrack.startX, SwipeTrack.startY, SwipeTrack.startTimeOr,
    jsAbs, dirNe_some_none, dirNe_none_some, dirNe_left_right, dirNe_left_up, dirNe_left_down, dirNe_right_left, dirNe_right_up, dirNe_right_down, dirNe_up_left, dirNe_up_right, dirNe_up_down, dirNe_down_left, dirNe_down_right, dirNe_down_up,
    c2_suffix7]

lemma c2_suffix5 :
    runUnified ⟨true, false, false, false⟩ (3/50) (1/20) (7/10) (1/2) (1/5)
      [(1/2, some ⟨⟨0, 0, 0⟩, ⟨0, 0, 0⟩, ⟨(-(1/25)), 0, 0⟩⟩, true),
       (3/5, some ⟨⟨0, 0, 0⟩, ⟨0, 0, 0⟩, ⟨(-(1/20)), 0, 0⟩⟩, true),
       (7/10, some ⟨⟨0, 0, 0⟩, ⟨0, 0, 0⟩, ⟨(-(3/50)), 0, 0⟩⟩, true)]
      ⟨some ⟨(-(3/100)), 0, 0⟩, some (2/5), some ⟨0, 0, 0⟩, some (1/10), some SwipeDirection.left⟩ ⟨false, false, 0⟩
    = (⟨some ⟨(-(3/50)), 0, 0⟩, some (7/10), some ⟨(-(3/50)), 0, 0⟩, some (7/10), none⟩, ⟨false, true, 7/10⟩, [(SwipeDirection.left, 7/10)]) := by
  norm_num [runUnified, swipeStep, horizBranch, vertBranch, tryFire, triggerGesture,
    advanceLock, reanchor, SwipeTrack.startX, SwipeTrack.startY, SwipeTrack.startTimeOr,
    jsAbs, dirNe_some_none, dirNe_none_some, dirNe_left_right, dirNe_left_up, dirNe_left_down, dirNe_right_left, dirNe_right_up, dirNe_right_down, dirNe_up_left, dirNe_up_right, dirNe_up_down, dirNe_down_left, dirNe_down_right, dirNe_down_up,
    c2_suffix6]

lemma c2_suffix4 :
    runUnified ⟨true, false, false, false⟩ (3/50) (1/20) (7/10) (1/2) (1/5)
      [(2/5, some ⟨⟨0, 0, 0⟩, ⟨0, 0, 0⟩, ⟨(-(3/100)), 0, 0⟩⟩, true),
       (1/2, some ⟨⟨0, 0, 0⟩, ⟨0, 0, 0⟩, ⟨(-(1/25)), 0, 0⟩⟩, true),
       (3/5, some ⟨⟨0, 0, 0⟩, ⟨0, 0, 0⟩, ⟨(-(1/20)), 0, 0⟩⟩, true),
       (7/10, some ⟨⟨0, 0, 0⟩, ⟨0, 0, 0⟩, ⟨(-(3/50)), 0, 0⟩⟩, true)]
      ⟨some ⟨(-(1/50)), 0, 0⟩, some (3/10), some ⟨0, 0, 0⟩, some (1/10), some SwipeDirection.left⟩ ⟨false, false, 0⟩
    = (⟨some ⟨(-(3/50)), 0, 0⟩, some (7/10), some ⟨(-(3/50)), 0, 0⟩, some (7/10), none⟩, ⟨false, true, 7/10⟩, [(SwipeDirection.left, 7/10)]) := by
  norm_num [runUnified, swipeStep, horizBranch, vertBranch, tryFire, triggerGesture,
    advanceLock, reanchor, SwipeTrack.startX, SwipeTrack.startY, SwipeTrack.startTimeOr,
    jsAbs, dirNe_some_none, dirNe_none_some, dirNe_left_right, dirNe_left_up, dirNe_left_down, dirNe_right_left, dirNe_right_up, dirNe_right_down, dirNe_up_left, dirNe_up_right, dirNe_up_down, dirNe_down_left, dirNe_down_right, dirNe_down_up,
    c2_suffix5]

lemma c2_suffix3 :
    runUnified ⟨true, false, false, false⟩ (3/50) (1/20) (7/10) (1/2) (1/5)
      [(3/10, some ⟨⟨0, 0, 0⟩, ⟨0, 0, 0⟩, ⟨(-(1/50)), 0, 0⟩⟩, true),
       (2/5, some ⟨⟨0, 0, 0⟩, ⟨0, 0, 0⟩, ⟨(-(3/100)), 0, 0⟩⟩, true),
       (1/2, some ⟨⟨0, 0, 0⟩, ⟨0, 0, 0⟩, ⟨(-(1/25)), 0, 0⟩⟩, true),
       (3/5, some ⟨⟨0, 0, 0⟩, ⟨0, 0, 0⟩, ⟨(-(1/20)), 0, 0⟩⟩, true),
       (7/10, some ⟨⟨0, 0, 0⟩, ⟨0, 0, 0⟩, ⟨(-(3/50)), 0, 0⟩⟩, true)]
      ⟨some ⟨(-(1/100)), 0, 0⟩, some (1/5), some ⟨0, 0, 0⟩, some (1/10), some SwipeDirection.left⟩ ⟨false, false, 0⟩
    = (⟨some ⟨(-(3/50)), 0, 0⟩, some (7/10), some ⟨(-(3/50)), 0, 0⟩, some (7/10), none⟩, ⟨false, true, 7/10⟩, [(SwipeDirection.left, 7/10)]) := by
  norm_num [runUnified, swipeStep, horizBranch, vertBranch, tryFire, triggerGesture,
    advanceLock, reanchor, SwipeTrack.startX, SwipeTrack.startY, SwipeTrack.startTimeOr,
    jsAbs, dirNe_some_none, dirNe_none_some, dirNe_left_right, dirNe_left_up, dirNe_left_down, dirNe_right_left, dirNe_right_up, dirNe_right_down, dirNe_up_left, dirNe_up_right, dirNe_up_down, dirNe_down_left, dirNe_down_right, dirNe_down_up,
    c2_suffix4]

lemma c2_suffix2 :
    runUnified ⟨true, false, false, false⟩ (3/50) (1/20) (7/10) (1/2) (1/5)
      [(1/5, some ⟨⟨0, 0, 0⟩, ⟨0, 0, 0⟩, ⟨(-(1/100)), 0, 0⟩⟩, true),
       (3/10, some ⟨⟨0, 0, 0⟩, ⟨0, 0, 0⟩, ⟨(-(1/50)), 0, 0⟩⟩, true),
       (2/5, some ⟨⟨0, 0, 0⟩, ⟨0, 0, 0⟩, ⟨(-(3/100)), 0, 0⟩⟩, true),
       (1/2, some ⟨⟨0, 0, 0⟩, ⟨0, 0, 0⟩, ⟨(-(1/25)), 0, 0⟩⟩, true),
       (3/5, some ⟨⟨0, 0, 0⟩, ⟨0, 0, 0⟩, ⟨(-(1/20)), 0, 0⟩⟩, true),
       (7/10, some ⟨⟨0, 0, 0⟩, ⟨0, 0, 0⟩, ⟨(-(3/50)), 0, 0⟩⟩, true)]
      ⟨some ⟨0, 0, 0⟩, some (1/10), some ⟨0, 0, 0⟩, some (1/10), none⟩ ⟨false, false, 0⟩
    = (⟨some ⟨(-(3/50)), 0, 0⟩, some (7/10), some ⟨(-(3/50)), 0, 0⟩, some (7/10), none⟩, ⟨false, true, 7/10⟩, [(SwipeDirection.left, 7/10)]) := by
  norm_num [runUnified, swipeStep, horizBranch, vertBranch, tryFire, triggerGesture,
    advanceLock, reanchor, SwipeTrack.startX, SwipeTrack.startY, SwipeTrack.startTimeOr,
    jsAbs, dirNe_some_none, dirNe_none_some, dirNe_left_right, dirNe_left_up, dirNe_left_down, dirNe_right_left, dirNe_right_up, dirNe_right_down, dirNe_up_left, dirNe_up_right, dirNe_up_down, dirNe_down_left, dirNe_down_right, dirNe_down_up,
    c2_suffix3]

lemma c2_suffix1 :
    runUnified ⟨true, false, false, false⟩ (3/50) (1/20) (7/10) (1/2) (1/5)
      [(1/10, some ⟨⟨0, 0, 0⟩, ⟨0, 0, 0⟩, ⟨0, 0, 0⟩⟩, true),
       (1/5, some ⟨⟨0, 0, 0⟩, ⟨0, 0, 0⟩, ⟨(-(1/100)), 0, 0⟩⟩, true),
       (3/10, some ⟨⟨0, 0, 0⟩, ⟨0, 0, 0⟩, ⟨(-(1/50)), 0, 0⟩⟩, true),
       (2/5, some ⟨⟨0, 0, 0⟩, ⟨0, 0, 0⟩, ⟨(-(3/100)), 0, 0⟩⟩, true),
       (1/2, some ⟨⟨0, 0, 0⟩, ⟨0, 0, 0⟩, ⟨(-(1/25)), 0, 0⟩⟩, true),
       (3/5, some ⟨⟨0, 0, 0⟩, ⟨0, 0, 0⟩, ⟨(-(1/20)), 0, 0⟩⟩, true),
       (7/10, some ⟨⟨0, 0, 0⟩, ⟨0, 0, 0⟩, ⟨(-(3/50)), 0, 0⟩⟩, true)]
      ⟨none, none, none, none, none⟩ ⟨false, false, 0⟩
    = (⟨some ⟨(-(3/50)), 0, 0⟩, some (7/10), some ⟨(-(3/50)), 0, 0⟩, some (7/10), none⟩, ⟨false, true, 7/10⟩, [(SwipeDirection.left, 7/10)]) := by
  norm_num [runUnified, swipeStep, horizBranch, vertBranch, tryFire, triggerGesture,
    advanceLock, reanchor, SwipeTrack.startX, SwipeTrack.startY, SwipeTrack.startTimeOr,
    jsAbs, dirNe_some_none, dirNe_none_some, dirNe_left_right, dirNe_left_up, dirNe_left_down, dirNe_right_left, dirNe_right_up, dirNe_right_down, dirNe_up_left, dirNe_up_right, dirNe_up_down, dirNe_down_left, dirNe_down_right, dirNe_down_up,
    c2_suffix2]


/-- The P5 trace: three ticks accumulating 0.03 m leftward, then one tick
moving 0.01 m rightward (the reversal), neutral throughout. -/
def p5Ticks : List (Rat × Option Frame × Bool) :=
  [(1/10, some ⟨⟨0, 0, 0⟩, ⟨0, 0, 0⟩, ⟨0, 0, 0⟩⟩, true),
   (1/5, some ⟨⟨0, 0, 0⟩, ⟨0, 0, 0⟩, ⟨(-(1/100)), 0, 0⟩⟩, true),
   (3/10, some ⟨⟨0, 0, 0⟩, ⟨0, 0, 0⟩, ⟨(-(1/50)), 0, 0⟩⟩, true),
   (2/5, some ⟨⟨0, 0, 0⟩, ⟨0, 0, 0⟩, ⟨(-(3/100)), 0, 0⟩⟩, true),
   (1/2, some ⟨⟨0, 0, 0⟩, ⟨0, 0, 0⟩, ⟨(-(1/50)), 0, 0⟩⟩, true)]

lemma c5_suffix5 :
    runUnified ⟨true, false, false, false⟩ (3/50) (1/20) (7/10) (1/2) (1/5)
      [(1/2, some ⟨⟨0, 0, 0⟩, ⟨0, 0, 0⟩, ⟨(-(1/50)), 0, 0⟩⟩, true)]
      ⟨some ⟨(-(3/100)), 0, 0⟩, some (2/5), some ⟨0, 0, 0⟩, some (1/10), some SwipeDirection.left⟩ ⟨false, false, 0⟩
    = (⟨some ⟨(-(1/50)), 0, 0⟩, some (1/2), some ⟨(-(1/50)), 0, 0⟩, some (1/2), none⟩, ⟨false, false, 0⟩, []) := by
  norm_num [runUnified, swipeStep, horizBranch, vertBranch, tryFire, triggerGesture,
    advanceLock, reanchor, SwipeTrack.startX, SwipeTrack.startY, SwipeTrack.startTimeOr,
    jsAbs, dirNe_some_none, dirNe_none_some, dirNe_left_right, dirNe_left_up, dirNe_left_down, dirNe_right_left, dirNe_right_up, dirNe_right_down, dirNe_up_left, dirNe_up_right, dirNe_up_down, dirNe_down_left, dirNe_down_right, dirNe_down_up]

lemma c5_suffix4 :
    runUnified ⟨true, false, false, false⟩ (3/50) (1/20) (7/10) (1/2) (1/5)
      [(2/5, some ⟨⟨0, 0, 0⟩, ⟨0, 0, 0⟩, ⟨(-(3/100)), 0, 0⟩⟩, true),
       (1/2, some ⟨⟨0, 0, 0⟩, ⟨0, 0, 0⟩, ⟨(-(1/50)), 0, 0⟩⟩, true)]
      ⟨some ⟨(-(1/50)), 0, 0⟩, some (3/10), some ⟨0, 0, 0⟩, some (1/10), some SwipeDirection.left⟩ ⟨false, false, 0⟩
    = (⟨some ⟨(-(1/50)), 0, 0⟩, some (1/2), some ⟨(-(1/50)), 0, 0⟩, some (1/2), none⟩, ⟨false, false, 0⟩, []) := by
  norm_num [runUnified, swipeStep, horizBranch, vertBranch, tryFire, triggerGesture,
    advanceLock, reanchor, SwipeTrack.startX, SwipeTrack.startY, SwipeTrack.startTimeOr,
    jsAbs, dirNe_some_none, dirNe_none_some, dirNe_left_right, dirNe_left_up, dirNe_left_down, dirNe_right_left, dirNe_right_up, dirNe_right_down, dirNe_up_left, dirNe_up_right, dirNe_up_down, dirNe_down_left, dirNe_down_right, dirNe_down_up,
    c5_suffix5]

lemma c5_suffix3 :
    runUnified ⟨true, false, false, false⟩ (3/50) (1/20) (7/10) (1/2) (1/5)
      [(3/10, some ⟨⟨0, 0, 0⟩, ⟨0, 0, 0⟩, ⟨(-(1/50)), 0, 0⟩⟩, true),
       (2/5, some ⟨⟨0, 0, 0⟩, ⟨0, 0, 0⟩, ⟨(-(3/100)), 0, 0⟩⟩, true),
       (1/2, some ⟨⟨0, 0, 0⟩, ⟨0, 0, 0⟩, ⟨(-(1/50)), 0, 0⟩⟩, true)]
      ⟨some ⟨(-(1/100)), 0, 0⟩, some (1/5), some ⟨0, 0, 0⟩, some (1/10), some SwipeDirection.left⟩ ⟨false, false, 0⟩
    = (⟨some ⟨(-(1/50)), 0, 0⟩, some (1/2), some ⟨(-(1/50)), 0, 0⟩, some (1/2), none⟩, ⟨false, false, 0⟩, []) := by
  norm_num [runUnified, swipeStep, horizBranch, vertBranch, tryFire, triggerGesture,
    advanceLock, reanchor, SwipeTrack.startX, SwipeTrack.startY, SwipeTrack.startTimeOr,
    jsAbs, dirNe_some_none, dirNe_none_some, dirNe_left_right, dirNe_left_up, dirNe_left_down, dirNe_right_left, dirNe_right_up, dirNe_right_down, dirNe_up_left, dirNe_up_right, dirNe_up_down, dirNe_down_left, dirNe_down_right, dirNe_down_up,
    c5_suffix4]

lemma c5_suffix2 :
    runUnified ⟨true, false, false, false⟩ (3/50) (1/20) (7/10) (1/2) (1/5)
      [(1/5, some ⟨⟨0, 0, 0⟩, ⟨0, 0, 0⟩, ⟨(-(1/100)), 0, 0⟩⟩, true),
       (3/10, some ⟨⟨0, 0, 0⟩, ⟨0, 0, 0⟩, ⟨(-(1/50)), 0, 0⟩⟩, true),
       (2/5, some ⟨⟨0, 0, 0⟩, ⟨0, 0, 0⟩, ⟨(-(3/100)), 0, 0⟩⟩, true),
       (1/2, some ⟨⟨0, 0, 0⟩, ⟨0, 0, 0⟩, ⟨(-(1/50)), 0, 0⟩⟩, true)]
      ⟨some ⟨0, 0, 0⟩, some (1/10), some ⟨0, 0, 0⟩, some (1/10), none⟩ ⟨false, false, 0⟩
    = (⟨some ⟨(-(1/50)), 0, 0⟩, some (1/2), some ⟨(-(1/50)), 0, 0⟩, some (1/2), none⟩, ⟨false, false, 0⟩, []) := by
  norm_num [runUnified, swipeStep, horizBranch, vertBranch, tryFire, triggerGesture,
    advanceLock, reanchor, SwipeTrack.startX, SwipeTrack.startY, SwipeTrack.startTimeOr,
    jsAbs, dirNe_some_none, dirNe_none_some, dirNe_left_right, dirNe_left_up, dirNe_left_down, dirNe_right_left, dirNe_right_up, dirNe_right_down, dirNe_up_left, dirNe_up_right, dirNe_up_down, dirNe_down_left, dirNe_down_right, dirNe_down_up,
    c5_suffix3]

lemma c5_suffix1 :
    runUnified ⟨true, false, false, false⟩ (3/50) (1/20) (7/10) (1/2) (1/5)
      [(1/10, some ⟨⟨0, 0, 0⟩, ⟨0, 0, 0⟩, ⟨0, 0, 0⟩⟩, true),
       (1/5, some ⟨⟨0, 0, 0⟩, ⟨0, 0, 0⟩, ⟨(-(1/100)), 0, 0⟩⟩, true),
       (3/10, some ⟨⟨0, 0, 0⟩, ⟨0, 0, 0⟩, ⟨(-(1/50)), 0, 0⟩⟩, true),
       (2/5, some ⟨⟨0, 0, 0⟩, ⟨0, 0, 0⟩, ⟨(-(3/100)), 0, 0⟩⟩, true),
       (1/2, some ⟨⟨0, 0, 0⟩, ⟨0, 0, 0⟩, ⟨(-(1/50)), 0, 0⟩⟩, true)]
      ⟨none, none, none, none, none⟩ ⟨false, false, 0⟩
    = (⟨some ⟨(-(1/50)), 0, 0⟩, some (1/2), some ⟨(-(1/50)), 0, 0⟩, some (1/2), none⟩, ⟨false, false, 0⟩, []) := by
  norm_num [runUnified, swipeStep, horizBranch, vertBranch, tryFire, triggerGesture,
    advanceLock, reanchor, SwipeTrack.startX, SwipeTrack.startY, SwipeTrack.startTimeOr,
    jsAbs, dirNe_some_none, dirNe_none_some, dirNe_left_right, dirNe_left_up, dirNe_left_down, dirNe_right_left, dirNe_right_up, dirNe_right_down, dirNe_up_left, dirNe_up_right, dirNe_up_down, dirNe_down_left, dirNe_down_right, dirNe_down_up,
    c5_suffix2]



/-! ## Claim theorems -/

/-- C3: `triggerGesture` returns `false` and leaves the lock state unchanged
when the lock is blocked; otherwise it sets `isBlocked`, records
`lastGestureTime = now`, and returns `true`. -/
theorem triggerGesture_spec (g : Gesture) (now : Rat) :
    (g.isBlocked = true → triggerGesture g now = (false, g)) ∧
    (g.isBlocked = false →
      triggerGesture g now =
        (true, { g with isBlocked := true, lastGestureTime := now })) := by
  constructor
  · intro h
    simp [triggerGesture, h]
  · intro h
    simp [triggerGesture, h]

/-- Witness for C3 at concrete lock states: a blocked lock is left unchanged
with result `false`; an unblocked lock is blocked at the given time with
result `true`. -/
theorem triggerGesture_spec_witness :
    triggerGesture ⟨false, true, 5⟩ 2 = (false, ⟨false, true, 5⟩) ∧
    triggerGesture ⟨true, false, 0⟩ 3 = (true, ⟨true, true, 3⟩) :=
  ⟨(triggerGesture_spec ⟨false, true, 5⟩ 2).1 rfl,
   (triggerGesture_spec ⟨true, false, 0⟩ 3).2 rfl⟩

/-- C4: a tick of `useSwipeGesture` with joints unavailable, or with the
neutral gate false, leaves every tracking field `none` and fires no
callback. -/
theorem gate_failure_resets_and_silences (cb : SwipeCallbacks) (hTh vTh hTT vTT : Rat)
    (f : Frame) (now : Rat) (st : SwipeTrack) (g : Gesture) :
    swipeStep cb hTh vTh hTT vTT none true now st g = (SwipeTrack.reset, g, none) ∧
    swipeStep cb hTh vTh hTT vTT none false now st g = (SwipeTrack.reset, g, none) ∧
    swipeStep cb hTh vTh hTT vTT (some f) false now st g = (SwipeTrack.reset, g, none) :=
  ⟨rfl, rfl, rfl⟩

/-- C7: a tick with `|deltaX| = |deltaY|` performs no classification: no
event, lock untouched, `currentDirection` and the window anchor unchanged,
and only the previous sample is updated. -/
theorem axis_tie_skips_classification (cb : SwipeCallbacks) (hTh vTh hTT vTT : Rat)
    (f : Frame) (now : Rat) (pp sp : Vec3) (pt : Rat) (stau : Option Rat)
    (dir : Option SwipeDirection) (g : Gesture)
    (htie : jsAbs (f.middleTip.x - pp.x) = jsAbs (f.middleTip.y - pp.y)) :
    swipeStep cb hTh vTh hTT vTT (some f) true now
      ⟨some pp, some pt, some sp, stau, dir⟩ g
    = (⟨some f.middleTip, some now, some sp, stau, dir⟩, g, none) := by
  by_cases hpt : pt = 0
  · simp [swipeStep, hpt]
  · simp [swipeStep, hpt, htie]

/-- Witness for C7: a diagonal step of (+1, +1) from the origin is a tie and
only moves the previous sample. -/
theorem axis_tie_skips_classification_witness :
    swipeStep ⟨true, true, true, true⟩ (6/100) (5/100) (7/10) (5/10)
      (some ⟨⟨0,0,0⟩, ⟨0,0,0⟩, ⟨1,1,0⟩⟩) true (2/10)
      ⟨some ⟨0,0,0⟩, some (1/10), some ⟨0,0,0⟩, some (1/10), none⟩ gestureInit
    = (⟨some ⟨1,1,0⟩, some (2/10), some ⟨0,0,0⟩, some (1/10), none⟩, gestureInit, none) :=
  axis_tie_skips_classification ⟨true, true, true, true⟩ (6/100) (5/100) (7/10) (5/10)
    ⟨⟨0,0,0⟩, ⟨0,0,0⟩, ⟨1,1,0⟩⟩ (2/10) ⟨0,0,0⟩ ⟨0,0,0⟩ (1/10) (some (1/10)) none gestureInit
    (by norm_num [jsAbs])

/-- C8: when joints are available and the thumb-tip/index-tip distance equals
the threshold exactly (stated on squares, which is equivalent for a
nonnegative threshold), `useNeutralHandPos` reports neutral: the boundary
comparison is inclusive. -/
theorem neutral_boundary_inclusive (threshold : Rat) (f : Frame)
    (_hth : 0 ≤ threshold)
    (heq : distSq f.thumbTip f.indexTip = threshold ^ 2) :
    checkNeutralPosition threshold (some f) = true := by
  simp [checkNeutralPosition, heq]

/-- Witness for C8 at the default threshold 0.01 m: thumb tip at the origin
and index tip 0.01 m away on the X axis is reported neutral. -/
theorem neutral_boundary_inclusive_witness :
    checkNeutralPosition (1/100) (some ⟨⟨0,0,0⟩, ⟨1/100,0,0⟩, ⟨0,0,0⟩⟩) = true :=
  neutral_boundary_inclusive (1/100) ⟨⟨0,0,0⟩, ⟨1/100,0,0⟩, ⟨0,0,0⟩⟩
    (by norm_num) (by norm_num [distSq])

/-- C10: with no previous sample (or a `null` previous time) no event can
fire, every gated tick records the current sample as the new previous
sample, every gate-failing tick clears it, and the first gated tick after a
reset bootstraps the window to the current sample; hence a callback requires
at least two consecutive gated samples. -/
theorem two_gated_samples_required (cb : SwipeCallbacks) (hTh vTh hTT vTT : Rat)
    (f : Frame) (joints : Option Frame) (b : Bool) (now : Rat)
    (pt stau : Option Rat) (sp : Option Vec3) (pp : Option Vec3)
    (dir : Option SwipeDirection) (st : SwipeTrack) (g : Gesture) :
    (swipeStep cb hTh vTh hTT vTT joints b now ⟨none, pt, sp, stau, dir⟩ g).2.2 = none ∧
    (swipeStep cb hTh vTh hTT vTT joints b now ⟨pp, none, sp, stau, dir⟩ g).2.2 = none ∧
    (swipeStep cb hTh vTh hTT vTT (some f) true now st g).1.previousPosition
      = some f.middleTip ∧
    (swipeStep cb hTh vTh hTT vTT (some f) true now st g).1.previousTime = some now ∧
    (swipeStep cb hTh vTh hTT vTT (some f) false now st g).1.previousPosition = none ∧
    (swipeStep cb hTh vTh hTT vTT none b now st g).1.previousPosition = none ∧
    (swipeStep cb hTh vTh hTT vTT (some f) true now
        ⟨none, pt, none, stau, dir⟩ g).1.gestureStartPosition = some f.middleTip ∧
    (swipeStep cb hTh vTh hTT vTT (some f) true now
        ⟨none, pt, none, stau, dir⟩ g).1.gestureStartTime = some now := by
  refine ⟨?_, ?_, ?_, ?_, ?_, ?_, ?_, ?_⟩
  · cases joints with
    | none => rfl
    | some f =>
      cases b with
      | false => rfl
      | true => cases sp with
        | none => rfl
        | some v => rfl
  · cases joints with
    | none => rfl
    | some f =>
      cases b with
      | false => rfl
      | true => cases sp with
        | none => cases pp with
          | none => rfl
          | some q => rfl
        | some v => cases pp with
          | none => rfl
          | some q => rfl
  · simp [swipeStep]
  · simp [swipeStep]
  · rfl
  · cases b with
    | false => rfl
    | true => rfl
  · rfl
  · rfl

/-- C2 (counterexample): on the P4 trace (seven ticks t = 0.1 s … 0.7 s,
-0.01 m per tick along X, neutral throughout, onLeft registered,
horizontalThreshold 0.06 m, horizontalTimeThreshold 0.7 s) the unified
detector fires exactly one left event, and its time is 0.7 s — not 0.6 s as
claimed, since the window anchors at the first tick's sample and the
cumulative displacement reaches 0.06 m only at the seventh tick. -/
theorem p4_trace_fire_not_at_sixth_tick :
    (runUnified ⟨true, false, false, false⟩ (3/50) (1/20) (7/10) (1/2) (1/5)
      p4Ticks SwipeTrack.reset gestureInit).2.2 = [(SwipeDirection.left, 7/10)] ∧
    (7/10 : Rat) ≠ 3/5 := by
  constructor
  · norm_num [p4Ticks, SwipeTrack.reset, gestureInit, c2_suffix1]
  · norm_num

/-- C2 (amended): on the P4 trace, `onLeft` is invoked exactly once, at the
tick with t = 0.7 s (elapsed 0.6 s ≤ 0.7 s from the anchor at t = 0.1 s) —
not at any earlier tick and not a second time. -/
theorem p4_trace_fires_once_at_seventh_tick :
    (runUnified ⟨true, false, false, false⟩ (3/50) (1/20) (7/10) (1/2) (1/5)
      p4Ticks SwipeTrack.reset gestureInit).2.2 = [(SwipeDirection.left, 7/10)] := by
  norm_num [p4Ticks, SwipeTrack.reset, gestureInit, c2_suffix1]

/-- C5: whenever the locked direction disagrees with the sign of the
dominant-axis per-tick delta, the window anchor is moved to the current
sample and the locked direction cleared; consequently the P5 trace
(0.03 m left, then 0.01 m right) fires nothing and ends re-anchored at the
reversal sample. -/
theorem reversal_reanchors_window :
    (∀ (cb : SwipeCallbacks) (hTh vTh hTT vTT : Rat) (f : Frame) (now : Rat)
      (pp sp : Vec3) (pt : Rat) (stau : Option Rat) (dir : SwipeDirection) (g : Gesture),
      pt ≠ 0 →
      ((jsAbs (f.middleTip.x - pp.x) > jsAbs (f.middleTip.y - pp.y) ∧
          ((dir = SwipeDirection.left ∧ f.middleTip.x - pp.x > 0) ∨
           (dir = SwipeDirection.right ∧ f.middleTip.x - pp.x < 0))) ∨
       (jsAbs (f.middleTip.y - pp.y) > jsAbs (f.middleTip.x - pp.x) ∧
          ((dir = SwipeDirection.up ∧ f.middleTip.y - pp.y < 0) ∨
           (dir = SwipeDirection.down ∧ f.middleTip.y - pp.y > 0)))) →
      swipeStep cb hTh vTh hTT vTT (some f) true now
        ⟨some pp, some pt, some sp, stau, some dir⟩ g
      = (⟨some f.middleTip, some now, some f.middleTip, some now, none⟩, g, none)) ∧
    runUnified ⟨true, false, false, false⟩ (3/50) (1/20) (7/10) (1/2) (1/5)
      p5Ticks SwipeTrack.reset gestureInit
    = (⟨some ⟨(-(1/50)), 0, 0⟩, some (1/2), some ⟨(-(1/50)), 0, 0⟩, some (1/2), none⟩,
       ⟨false, false, 0⟩, []) := by
  constructor
  · intro cb hTh vTh hTT vTT f now pp sp pt stau dir g hpt hcase
    rcases hcase with ⟨hdom, hLR⟩ | ⟨hdom, hUD⟩
    · rcases hLR with ⟨rfl, hdx⟩ | ⟨rfl, hdx⟩
      · simp [swipeStep, horizBranch, vertBranch, tryFire, reanchor, hpt, hdom, hdx, asymm hdx]
      · simp [swipeStep, horizBranch, vertBranch, tryFire, reanchor, hpt, hdom, hdx, asymm hdx]
    · rcases hUD with ⟨rfl, hdy⟩ | ⟨rfl, hdy⟩
      · simp [swipeStep, horizBranch, vertBranch, tryFire, reanchor, hpt, hdom, asymm hdom, hdy, asymm hdy]
      · simp [swipeStep, horizBranch, vertBranch, tryFire, reanchor, hpt, hdom, asymm hdom, hdy, asymm hdy]
  · norm_num [p5Ticks, SwipeTrack.reset, gestureInit, c5_suffix1]

/-- Witness for C5: a tick with direction locked left and a positive
dominant X delta re-anchors the window to the current sample and fires
nothing. -/
theorem reversal_reanchors_window_witness :
    swipeStep ⟨true, true, true, true⟩ (6/100) (5/100) (7/10) (5/10)
      (some ⟨⟨0,0,0⟩, ⟨0,0,0⟩, ⟨1,0,0⟩⟩) true (2/10)
      ⟨some ⟨0,0,0⟩, some (1/10), some ⟨(-(3/100)),0,0⟩, some (1/10),
        some SwipeDirection.left⟩ gestureInit
    = (⟨some ⟨1,0,0⟩, some (2/10), some ⟨1,0,0⟩, some (2/10), none⟩, gestureInit, none) :=
  reversal_reanchors_window.1 ⟨true, true, true, true⟩ (6/100) (5/100) (7/10) (5/10)
    ⟨⟨0,0,0⟩, ⟨0,0,0⟩, ⟨1,0,0⟩⟩ (2/10) ⟨0,0,0⟩ ⟨(-(3/100)),0,0⟩ (1/10) (some (1/10))
    SwipeDirection.left gestureInit (by norm_num)
    (Or.inl ⟨by norm_num [jsAbs], Or.inl ⟨rfl, by norm_num⟩⟩)


/-- The legacy `useLeftSwipeGesture` tick never consults the `neutral` field
of the shared gesture state: its result is the same for any value of that
field, which is carried through unchanged. -/
lemma legacyLeft_neutral_invariant (th tt : Rat) (j : Option Frame) (now : Rat)
    (st : SingleTrack) (b bp blocked : Bool) (t : Rat) :
    leftSwipeTick th tt j now st ⟨b, blocked, t⟩
    = ((leftSwipeTick th tt j now st ⟨bp, blocked, t⟩).1,
       ⟨b, (leftSwipeTick th tt j now st ⟨bp, blocked, t⟩).2.1.isBlocked,
          (leftSwipeTick th tt j now st ⟨bp, blocked, t⟩).2.1.lastGestureTime⟩,
       (leftSwipeTick th tt j now st ⟨bp, blocked, t⟩).2.2) := by
  cases j with
  | none => rfl
  | some fr =>
    rcases st with ⟨pp, pt, sp, stau⟩
    cases pp with
    | none => cases sp <;> rfl
    | some q =>
      cases pt with
      | none => cases sp <;> rfl
      | some tau =>
        cases sp with
        | none =>
          cases blocked <;>
            (simp [leftSwipeTick, triggerGesture, reanchorS]
             try (split_ifs <;> first | rfl | simp))
        | some v =>
          cases blocked <;>
            (simp [leftSwipeTick, triggerGesture, reanchorS]
             try (split_ifs <;> first | rfl | simp))

/-- The legacy `useRightSwipeGesture` tick never consults the `neutral` field
of the shared gesture state: its result is the same for any value of that
field, which is carried through unchanged. -/
lemma legacyRight_neutral_invariant (th tt : Rat) (j : Option Frame) (now : Rat)
    (st : SingleTrack) (b bp blocked : Bool) (t : Rat) :
    rightSwipeTick th tt j now st ⟨b, blocked, t⟩
    = ((rightSwipeTick th tt j now st ⟨bp, blocked, t⟩).1,
       ⟨b, (rightSwipeTick th tt j now st ⟨bp, blocked, t⟩).2.1.isBlocked,
          (rightSwipeTick th tt j now st ⟨bp, blocked, t⟩).2.1.lastGestureTime⟩,
       (rightSwipeTick th tt j now st ⟨bp, blocked, t⟩).2.2) := by
  cases j with
  | none => rfl
  | some fr =>
    rcases st with ⟨pp, pt, sp, stau⟩
    cases pp with
    | none => cases sp <;> rfl
    | some q =>
      cases pt with
      | none => cases sp <;> rfl
      | some tau =>
        cases sp with
        | none =>
          cases blocked <;>
            (simp [rightSwipeTick, triggerGesture, reanchorS]
             try (split_ifs <;> first | rfl | simp))
        | some v =>
          cases blocked <;>
            (simp [rightSwipeTick, triggerGesture, reanchorS]
             try (split_ifs <;> first | rfl | simp))

/-- The legacy `useUpSwipeGesture` tick never consults the `neutral` field
of the shared gesture state: its result is the same for any value of that
field, which is carried through unchanged. -/
lemma legacyUp_neutral_invariant (th tt : Rat) (j : Option Frame) (now : Rat)
    (st : SingleTrack) (b bp blocked : Bool) (t : Rat) :
    upSwipeTick th tt j now st ⟨b, blocked, t⟩
    = ((upSwipeTick th tt j now st ⟨bp, blocked, t⟩).1,
       ⟨b, (upSwipeTick th tt j now st ⟨bp, blocked, t⟩).2.1.isBlocked,
          (upSwipeTick th tt j now st ⟨bp, blocked, t⟩).2.1.lastGestureTime⟩,
       (upSwipeTick th tt j now st ⟨bp, blocked, t⟩).2.2) := by
  cases j with
  | none => rfl
  | some fr =>
    rcases st with ⟨pp, pt, sp, stau⟩
    cases pp with
    | none => cases sp <;> rfl
    | some q =>
      cases pt with
      | none => cases sp <;> rfl
      | some tau =>
        cases sp with
        | none =>
          cases blocked <;>
            (simp [upSwipeTick, triggerGesture, reanchorS]
             try (split_ifs <;> first | rfl | simp))
        | some v =>
          cases blocked <;>
            (simp [upSwipeTick, triggerGesture, reanchorS]
             try (split_ifs <;> first | rfl | simp))

/-- The legacy `useDownSwipeGesture` tick never consults the `neutral` field
of the shared gesture state: its result is the same for any value of that
field, which is carried through unchanged. -/
lemma legacyDown_neutral_invariant (th tt : Rat) (j : Option Frame) (now : Rat)
    (st : SingleTrack) (b bp blocked : Bool) (t : Rat) :
    downSwipeTick th tt j now st ⟨b, blocked, t⟩
    = ((downSwipeTick th tt j now st ⟨bp, blocked, t⟩).1,
       ⟨b, (downSwipeTick th tt j now st ⟨bp, blocked, t⟩).2.1.isBlocked,
          (downSwipeTick th tt j now st ⟨bp, blocked, t⟩).2.1.lastGestureTime⟩,
       (downSwipeTick th tt j now st ⟨bp, blocked, t⟩).2.2) := by
  cases j with
  | none => rfl
  | some fr =>
    rcases st with ⟨pp, pt, sp, stau⟩
    cases pp with
    | none => cases sp <;> rfl
    | some q =>
      cases pt with
      | none => cases sp <;> rfl
      | some tau =>
        cases sp with
        | none =>
          cases blocked <;>
            (simp [downSwipeTick, triggerGesture, reanchorS]
             try (split_ifs <;> first | rfl | simp))
        | some v =>
          cases blocked <;>
            (simp [downSwipeTick, triggerGesture, reanchorS]
             try (split_ifs <;> first | rfl | simp))

/-- C6: on a tick whose dominant-axis displacement and elapsed window time
satisfy the thresholds (with a callback registered) but whose lock is held,
`useSwipeGesture` leaves the window anchor (`gestureStartPosition`,
`gestureStartTime`) unmodified, invokes no callback, and leaves the lock
unchanged. -/
theorem lock_suppression_preserves_window (cb : SwipeCallbacks) (hTh vTh hTT vTT : Rat)
    (f : Frame) (now : Rat) (pp sp : Vec3) (pt tau : Rat)
    (dirOpt : Option SwipeDirection) (g : Gesture)
    (hblk : g.isBlocked = true) (hpt : pt ≠ 0) (htau : tau ≠ 0)
    (hcase :
      (jsAbs (f.middleTip.x - pp.x) > jsAbs (f.middleTip.y - pp.y) ∧
        ((f.middleTip.x - pp.x < 0 ∧ (dirOpt = none ∨ dirOpt = some SwipeDirection.left) ∧
           cb.onLeft = true ∧ jsAbs (f.middleTip.x - sp.x) ≥ hTh ∧ now - tau ≤ hTT) ∨
         (f.middleTip.x - pp.x > 0 ∧ (dirOpt = none ∨ dirOpt = some SwipeDirection.right) ∧
           cb.onRight = true ∧ jsAbs (f.middleTip.x - sp.x) ≥ hTh ∧ now - tau ≤ hTT))) ∨
      (jsAbs (f.middleTip.y - pp.y) > jsAbs (f.middleTip.x - pp.x) ∧
        ((f.middleTip.y - pp.y > 0 ∧ (dirOpt = none ∨ dirOpt = some SwipeDirection.up) ∧
           cb.onUp = true ∧ jsAbs (sp.y - f.middleTip.y) ≥ vTh ∧ now - tau ≤ vTT) ∨
         (f.middleTip.y - pp.y < 0 ∧ (dirOpt = none ∨ dirOpt = some SwipeDirection.down) ∧
           cb.onDown = true ∧ jsAbs (f.middleTip.y - sp.y) ≥ vTh ∧ now - tau ≤ vTT)))) :
    (swipeStep cb hTh vTh hTT vTT (some f) true now
        ⟨some pp, some pt, some sp, some tau, dirOpt⟩ g).1.gestureStartPosition = some sp ∧
    (swipeStep cb hTh vTh hTT vTT (some f) true now
        ⟨some pp, some pt, some sp, some tau, dirOpt⟩ g).1.gestureStartTime = some tau ∧
    (swipeStep cb hTh vTh hTT vTT (some f) true now
        ⟨some pp, some pt, some sp, some tau, dirOpt⟩ g).2.2 = none ∧
    (swipeStep cb hTh vTh hTT vTT (some f) true now
        ⟨some pp, some pt, some sp, some tau, dirOpt⟩ g).2.1 = g := by
  rcases hcase with ⟨hdom, hc⟩ | ⟨hdom, hc⟩ <;>
    rcases hc with ⟨h1, hdir, hcb, hdist, htime⟩ | ⟨h1, hdir, hcb, hdist, htime⟩ <;>
    rcases hdir with rfl | rfl <;>
    simp [swipeStep, horizBranch, vertBranch, tryFire, triggerGesture, reanchor,
      SwipeTrack.startX, SwipeTrack.startY, SwipeTrack.startTimeOr,
      hblk, hpt, htau, hdom, asymm hdom, h1, asymm h1, hcb, hdist, htime]

/-- Witness for C6: a blocked lock suppresses a fully qualified left swipe
and leaves the window and lock untouched. -/
theorem lock_suppression_preserves_window_witness :
    (swipeStep ⟨true, false, false, false⟩ (3/50) (1/20) (7/10) (1/2)
        (some ⟨⟨0,0,0⟩, ⟨0,0,0⟩, ⟨(-(7/100)),0,0⟩⟩) true (1/5)
        ⟨some ⟨0,0,0⟩, some (1/10), some ⟨0,0,0⟩, some (1/10), none⟩
        ⟨false, true, 0⟩).1.gestureStartPosition = some ⟨0,0,0⟩ ∧
    (swipeStep ⟨true, false, false, false⟩ (3/50) (1/20) (7/10) (1/2)
        (some ⟨⟨0,0,0⟩, ⟨0,0,0⟩, ⟨(-(7/100)),0,0⟩⟩) true (1/5)
        ⟨some ⟨0,0,0⟩, some (1/10), some ⟨0,0,0⟩, some (1/10), none⟩
        ⟨false, true, 0⟩).1.gestureStartTime = some (1/10) ∧
    (swipeStep ⟨true, false, false, false⟩ (3/50) (1/20) (7/10) (1/2)
        (some ⟨⟨0,0,0⟩, ⟨0,0,0⟩, ⟨(-(7/100)),0,0⟩⟩) true (1/5)
        ⟨some ⟨0,0,0⟩, some (1/10), some ⟨0,0,0⟩, some (1/10), none⟩
        ⟨false, true, 0⟩).2.2 = none ∧
    (swipeStep ⟨true, false, false, false⟩ (3/50) (1/20) (7/10) (1/2)
        (some ⟨⟨0,0,0⟩, ⟨0,0,0⟩, ⟨(-(7/100)),0,0⟩⟩) true (1/5)
        ⟨some ⟨0,0,0⟩, some (1/10), some ⟨0,0,0⟩, some (1/10), none⟩
        ⟨false, true, 0⟩).2.1 = ⟨false, true, 0⟩ :=
  lock_suppression_preserves_window ⟨true, false, false, false⟩ (3/50) (1/20) (7/10) (1/2)
    ⟨⟨0,0,0⟩, ⟨0,0,0⟩, ⟨(-(7/100)),0,0⟩⟩ (1/5) ⟨0,0,0⟩ ⟨0,0,0⟩ (1/10) (1/10) none
    ⟨false, true, 0⟩ rfl (by norm_num) (by norm_num)
    (Or.inl ⟨by norm_num [jsAbs], Or.inl ⟨by norm_num, Or.inl rfl, rfl,
      by norm_num [jsAbs], by norm_num⟩⟩)

/-- C9: the legacy single-direction hooks never consult the neutral signal —
each tick function is invariant under the `neutral` field of the shared
gesture state (carrying it through unchanged); a left swipe fires even while
the hand pose is not neutral (`checkNeutralPosition` is false on the very
frames driving it); and on every tick with joints available the hooks track
the current sample, with only joint unavailability resetting the state. -/
theorem legacy_hooks_ignore_neutral :
    (∀ (th tt : Rat) (j : Option Frame) (now : Rat) (st : SingleTrack)
        (b bp blocked : Bool) (t : Rat),
      leftSwipeTick th tt j now st ⟨b, blocked, t⟩
      = ((leftSwipeTick th tt j now st ⟨bp, blocked, t⟩).1,
         ⟨b, (leftSwipeTick th tt j now st ⟨bp, blocked, t⟩).2.1.isBlocked,
            (leftSwipeTick th tt j now st ⟨bp, blocked, t⟩).2.1.lastGestureTime⟩,
         (leftSwipeTick th tt j now st ⟨bp, blocked, t⟩).2.2)) ∧
    (∀ (th tt : Rat) (j : Option Frame) (now : Rat) (st : SingleTrack)
        (b bp blocked : Bool) (t : Rat),
      rightSwipeTick th tt j now st ⟨b, blocked, t⟩
      = ((rightSwipeTick th tt j now st ⟨bp, blocked, t⟩).1,
         ⟨b, (rightSwipeTick th tt j now st ⟨bp, blocked, t⟩).2.1.isBlocked,
            (rightSwipeTick th tt j now st ⟨bp, blocked, t⟩).2.1.lastGestureTime⟩,
         (rightSwipeTick th tt j now st ⟨bp, blocked, t⟩).2.2)) ∧
    (∀ (th tt : Rat) (j : Option Frame) (now : Rat) (st : SingleTrack)
        (b bp blocked : Bool) (t : Rat),
      upSwipeTick th tt j now st ⟨b, blocked, t⟩
      = ((upSwipeTick th tt j now st ⟨bp, blocked, t⟩).1,
         ⟨b, (upSwipeTick th tt j now st ⟨bp, blocked, t⟩).2.1.isBlocked,
            (upSwipeTick th tt j now st ⟨bp, blocked, t⟩).2.1.lastGestureTime⟩,
         (upSwipeTick th tt j now st ⟨bp, blocked, t⟩).2.2)) ∧
    (∀ (th tt : Rat) (j : Option Frame) (now : Rat) (st : SingleTrack)
        (b bp blocked : Bool) (t : Rat),
      downSwipeTick th tt j now st ⟨b, blocked, t⟩
      = ((downSwipeTick th tt j now st ⟨bp, blocked, t⟩).1,
         ⟨b, (downSwipeTick th tt j now st ⟨bp, blocked, t⟩).2.1.isBlocked,
            (downSwipeTick th tt j now st ⟨bp, blocked, t⟩).2.1.lastGestureTime⟩,
         (downSwipeTick th tt j now st ⟨bp, blocked, t⟩).2.2)) ∧
    (checkNeutralPosition (1/100)
        (some ⟨⟨0,0,0⟩, ⟨1,0,0⟩, ⟨(-(2/25)),0,0⟩⟩) = false ∧
      leftSwipeTick (7/100) (7/10) (some ⟨⟨0,0,0⟩, ⟨1,0,0⟩, ⟨0,0,0⟩⟩) (1/10)
        SingleTrack.reset ⟨false, false, 0⟩
      = (⟨some ⟨0,0,0⟩, some (1/10), some ⟨0,0,0⟩, some (1/10)⟩, ⟨false, false, 0⟩, false) ∧
      leftSwipeTick (7/100) (7/10) (some ⟨⟨0,0,0⟩, ⟨1,0,0⟩, ⟨(-(2/25)),0,0⟩⟩) (1/5)
        ⟨some ⟨0,0,0⟩, some (1/10), some ⟨0,0,0⟩, some (1/10)⟩ ⟨false, false, 0⟩
      = (⟨some ⟨(-(2/25)),0,0⟩, some (1/5), some ⟨(-(2/25)),0,0⟩, some (1/5)⟩,
         ⟨false, true, 1/5⟩, true)) ∧
    (∀ (th tt : Rat) (f : Frame) (now : Rat) (st : SingleTrack) (g : Gesture),
      (leftSwipeTick th tt (some f) now st g).1.previousPosition = some f.middleTip ∧
      (rightSwipeTick th tt (some f) now st g).1.previousPosition = some f.middleTip ∧
      (upSwipeTick th tt (some f) now st g).1.previousPosition = some f.middleTip ∧
      (downSwipeTick th tt (some f) now st g).1.previousPosition = some f.middleTip ∧
      leftSwipeTick th tt none now st g = (SingleTrack.reset, g, false) ∧
      rightSwipeTick th tt none now st g = (SingleTrack.reset, g, false) ∧
      upSwipeTick th tt none now st g = (SingleTrack.reset, g, false) ∧
      downSwipeTick th tt none now st g = (SingleTrack.reset, g, false)) := by
  refine ⟨legacyLeft_neutral_invariant, legacyRight_neutral_invariant,
    legacyUp_neutral_invariant, legacyDown_neutral_invariant, ⟨?_, ?_, ?_⟩,
    fun th tt f now st g => ⟨rfl, rfl, rfl, rfl, rfl, rfl, rfl, rfl⟩⟩
  · norm_num [checkNeutralPosition, distSq]
  · norm_num [leftSwipeTick, triggerGesture, reanchorS, SingleTrack.reset,
      SingleTrack.startX, SingleTrack.startTimeOr, jsAbs]
  · norm_num [leftSwipeTick, triggerGesture, reanchorS, SingleTrack.reset,
      SingleTrack.startX, SingleTrack.startTimeOr, jsAbs]


/-- C1 (code bug): mutual exclusion is violated within a single frame.  Each
hook's `triggerGesture` is a `useCallback` closing over the render-captured
snapshot `gesture.isBlocked` of the shared `gestureAtom`
(`useXRGesture.ts` lines 106-120); a `setGesture` by one hook during a frame
is invisible to another hook's closure until React re-renders, so within one
frame every detector guards on the same pre-frame snapshot.  On a diagonal
motion (previous sample the origin at t = 0.1 s, current `Middle_Tip` at
(-0.08, -0.08, 0), t = 0.2 s) with the snapshot unblocked, the legacy
`useLeftSwipeGesture` (thresholds 0.07 m / 0.7 s) and `useDownSwipeGesture`
(thresholds 0.05 m / 0.5 s) — which share the lock but have no
axis-dominance arbitration — both pass their guards and both invoke their
callbacks at the same tick time: two gesture events 0 s apart, less than any
positive `blockDuration` (0.2 s unified / 1.0 s legacy defaults), refuting
the claim that no two callbacks fire less than `blockDuration` apart. -/
theorem same_frame_snapshot_double_fire :
    (leftSwipeTick (7/100) (7/10)
        (some ⟨⟨0,0,0⟩, ⟨0,0,0⟩, ⟨(-(2/25)), (-(2/25)), 0⟩⟩) (1/5)
        ⟨some ⟨0,0,0⟩, some (1/10), some ⟨0,0,0⟩, some (1/10)⟩
        ⟨false, false, 0⟩).2.2 = true ∧
    (downSwipeTick (1/20) (1/2)
        (some ⟨⟨0,0,0⟩, ⟨0,0,0⟩, ⟨(-(2/25)), (-(2/25)), 0⟩⟩) (1/5)
        ⟨some ⟨0,0,0⟩, some (1/10), some ⟨0,0,0⟩, some (1/10)⟩
        ⟨false, false, 0⟩).2.2 = true ∧
    ((1/5 : Rat) - 1/5 < 1/5 ∧ (1/5 : Rat) - 1/5 < 1) := by
  refine ⟨?_, ?_, by norm_num, by norm_num⟩
  · norm_num [leftSwipeTick, triggerGesture, reanchorS, SingleTrack.reset,
      SingleTrack.startX, SingleTrack.startY, SingleTrack.startTimeOr, jsAbs]
  · norm_num [downSwipeTick, triggerGesture, reanchorS, SingleTrack.reset,
      SingleTrack.startX, SingleTrack.startY, SingleTrack.startTimeOr, jsAbs]
